import Mathlib

/-!
Shallow embedding of the wasm-dvm data-vending-machine service and proofs about
its specification claims.

The Rust sources embedded here:
  * src/models/zap_balance.rs   (ZapBalance::update_balance)
  * src/models/event_nonce.rs   (EventNonce::get_next_id)
  * src/models/mod.rs           (PostgresStorage::get_next_nonce_indexes,
                                 PostgresStorage::save_signatures)
  * src/wasm_handler.rs         (download_and_run_wasm)
  * src/job_listener.rs         (handle_event, process_schedule_jobs_round,
                                 run_scheduled_job)
  * src/invoice_subscriber.rs   (handle_invoice, handle_job_request,
                                 run_job_request)

Machine integers are modelled as Nat/Int with explicit reduction modulo powers
of two where the Rust code can overflow; Rust f64 arithmetic is modelled by
exact rationals together with an explicit binary64 round-to-nearest-even
rounding function; fallible Rust code returns Except.
-/

namespace WasmDvm

/-- Decidable equality for Except results, used by the effect records below. -/
instance {ε α : Type} [DecidableEq ε] [DecidableEq α] : DecidableEq (Except ε α) :=
  fun x y =>
    match x, y with
    | .ok a, .ok b => decidable_of_iff (a = b) (by simp)
    | .error a, .error b => decidable_of_iff (a = b) (by simp)
    | .ok _, .error _ => isFalse (by simp)
    | .error _, .ok _ => isFalse (by simp)

/-! ## Machine-integer casts -/

/-- Clamp of an integer into the i32 range.  Rust
i32::saturating_add a b is i32sat (a + b) whenever a and b are themselves
in the i32 range. -/
def i32sat (x : ℤ) : ℤ := max (-(2 ^ 31)) (min (2 ^ 31 - 1) x)

/-- Rust cast u64 to i32 (used for value_msat as i32 in handle_event):
two's complement wrap of the low 32 bits. -/
def i32cast (n : ℕ) : ℤ :=
  if n % 2 ^ 32 < 2 ^ 31 then (n % 2 ^ 32 : ℤ) else (n % 2 ^ 32 : ℤ) - 2 ^ 32

/-- Rust cast i32 to u64 (used for balance_msats as u64 in handle_event):
sign extension, i.e. reduction of the integer modulo 2^64. -/
def i32_as_u64 (x : ℤ) : ℕ := (x % 2 ^ 64).toNat

/-! ## Request payloads (wasm_handler.rs ScheduledParams and JobParams) -/

/-- Field-for-field image of struct ScheduledParams (wasm_handler.rs lines
18-26): expected outputs, run date (unix seconds) and announcement name. -/
structure ScheduledParams where
  expected_outputs : Option (List String)
  run_date : ℕ
  name : Option String
deriving DecidableEq

/-- Field-for-field image of struct JobParams (wasm_handler.rs lines 28-36).
time is u64 milliseconds, checksum the declared sha256 hex string. -/
structure JobParams where
  url : String
  function : String
  input : String
  time : ℕ
  checksum : String
  schedule : Option ScheduledParams
deriving DecidableEq

/-! ## Balances (src/models/zap_balance.rs) -/

/-- Row of the zap_balances table: the key bytes and the i32 msat balance
(zap_balance.rs lines 23-27; created_at omitted, it is never read). -/
structure ZapBalance where
  npub : List ℕ
  balance_msats : ℤ
deriving DecidableEq

/-- Embedding of ZapBalance::update_balance (zap_balance.rs lines 61-78):
new_balance is self.balance_msats.saturating_add(amount_msats); if it is
negative the function bails with "Insufficient balance" before touching the
database (Except.error carries no state change), otherwise the row is stored
and returned with balance_msats = new_balance. -/
def update_balance (b : ZapBalance) (amount_msats : ℤ) : Except String ZapBalance :=
  let new_balance := i32sat (b.balance_msats + amount_msats)
  if new_balance < 0 then .error "Insufficient balance"
  else .ok { b with balance_msats := new_balance }

/-! ## Oracle nonce counter (event_nonce.rs, models/mod.rs) -/

/-- Embedding of EventNonce::get_next_id (event_nonce.rs lines 59-66):
select max(id) from event_nonces, then map (+1) with default 0 for an empty
table.  The argument is the max id when the table is non-empty. -/
def get_next_id (maxId : Option ℕ) : ℕ :=
  match maxId with
  | some m => m + 1
  | none => 0

/-- Boot value of PostgresStorage.current_index (models/mod.rs lines 81-88):
get_next_id cast as u32. -/
def nonce_seed (maxId : Option ℕ) : ℕ := get_next_id maxId % 2 ^ 32

/-- Value of the AtomicU32 counter after
PostgresStorage::get_next_nonce_indexes (models/mod.rs line 167):
a single fetch_add(num as u32, SeqCst); u32 addition wraps modulo 2^32 and
the usize argument is truncated to u32 by the cast. -/
def nonce_counter_after (st num : ℕ) : ℕ := (st + num % 2 ^ 32) % 2 ^ 32

/-- Vector returned by get_next_nonce_indexes (models/mod.rs lines 168-173):
starting from the fetched value, push then increment, num times; the local
u32 increments wrap modulo 2^32. -/
def nonce_ids (st num : ℕ) : List ℕ :=
  (List.range (num % 2 ^ 32)).map (fun i => (st + i) % 2 ^ 32)

/-- Embedding of PostgresStorage::get_next_nonce_indexes
(models/mod.rs lines 166-174): the counter state after the call together with
the returned indexes. -/
def get_next_nonce_indexes (st num : ℕ) : ℕ × List ℕ :=
  (nonce_counter_after st num, nonce_ids st num)

/-! ## Binary64 price arithmetic (job_listener.rs line 106) -/

/-- Round a rational to an integer, nearest, ties to even: the rounding used
by IEEE-754 binary64 arithmetic. -/
def rne (x : ℚ) : ℤ :=
  if x - ⌊x⌋ < 1 / 2 then ⌊x⌋
  else if 1 / 2 < x - ⌊x⌋ then ⌊x⌋ + 1
  else if ⌊x⌋ % 2 = 0 then ⌊x⌋ else ⌊x⌋ + 1

/-- Binary64 rounding of a rational in the positive normal finite range: the
value is quantised to 53 significant bits at the exponent given by Int.log 2,
nearest, ties to even.  Nonpositive inputs are mapped to 0 (the uses below
never produce them).  This models the result of a Rust f64 arithmetic
operation whose exact value is the argument. -/
def f64round (q : ℚ) : ℚ :=
  if q ≤ 0 then 0
  else (rne (q * 2 ^ (52 - Int.log 2 q)) : ℚ) * 2 ^ (Int.log 2 q - 52)

/-- Rust saturating cast f64 to u64 for a finite value: truncation toward
zero, negative values to 0, values beyond u64::MAX to u64::MAX. -/
def u64cast (q : ℚ) : ℕ := min (⌊q⌋.toNat) (2 ^ 64 - 1)

/-- Embedding of the price computation of handle_event (job_listener.rs line
106): let value_msat = (params.time as f64 * price) as u64.  The configured
price is passed as the exact rational value of the f64 configuration flag;
params.time as f64 is f64round of the integer, the product is rounded once
more by the f64 multiplication, and the u64 cast saturates and truncates. -/
def value_msat (time : ℕ) (price : ℚ) : ℕ :=
  u64cast (f64round (f64round time * price))

/-- Billing formula stated by the spec, for comparison with value_msat:
floor(params.time x price_per_ms) over exact rational arithmetic
(spec section 4.1, Price). -/
def value_msat_spec (time : ℕ) (price : ℚ) : ℕ := (⌊(time : ℚ) * price⌋).toNat

/-! ## Wasm runner (wasm_handler.rs download_and_run_wasm) -/

/-- Failures of the Wasm runner, one constructor per bail site of
download_and_run_wasm plus the propagated run_wasm failure.
tooLarge covers both anyhow bails whose message is "File too large";
checksumMismatch carries the declared checksum and the computed hex digest
as the message "Checksum mismatch expected: .. got: .." does; httpStatus is
"Failed to download file: HTTP ..". -/
inductive RunFailure
  | httpStatus (code : ℕ)
  | tooLarge
  | checksumMismatch (expected got : String)
  | wasmError (msg : String)
deriving DecidableEq

/-- Abstraction of the reqwest response consumed by download_and_run_wasm:
success flag and code of the status, the optional declared content length and
the body bytes. -/
structure HttpResponse where
  statusSuccess : Bool
  statusCode : ℕ
  content_length : Option ℕ
  body : List ℕ
deriving DecidableEq

/-- Observable outcome of one download_and_run_wasm call: the returned value
and which effects happened on the way (File::create reached, explicit
std::fs::remove_file executed, run_wasm reached, i.e. sandbox instantiated
and guest invoked). -/
structure DownloadTrace where
  result : Except RunFailure String
  fileCreated : Bool
  fileRemoved : Bool
  wasmRan : Bool
deriving DecidableEq

/-- Constant MAX_WASM_FILE_SIZE (wasm_handler.rs line 16). -/
def MAX_WASM_FILE_SIZE : ℕ := 25000000

/-- ASCII lowercase of one character, the relevant fragment of Rust
char::to_lowercase (checksum strings are ASCII hex). -/
def asciiLowerChar (c : Char) : Char :=
  if 65 ≤ c.toNat ∧ c.toNat ≤ 90 then Char.ofNat (c.toNat + 32) else c

/-- Model of Rust str::to_lowercase as used on the declared checksum
(wasm_handler.rs line 67): character-wise lowercase. -/
def to_lowercase (s : String) : String := ⟨s.data.map asciiLowerChar⟩

/-- Embedding of download_and_run_wasm (wasm_handler.rs lines 38-84) after a
successful URL parse, temp dir creation and HTTP send.  sha256hex renders the
lowercase hex sha256 digest of the body bytes (the hash itself is opaque to
the claims, so it is a parameter); wasmResult is what run_wasm would return
for these params.  Control flow in source order: status check, declared
content_length check against MAX_WASM_FILE_SIZE (unwrap_or(0)), File::create,
body length check, sha256 of the body compared against
to_lowercase of params.checksum with explicit remove_file on mismatch, then
run_wasm. -/
def download_and_run_wasm (sha256hex : List ℕ → String) (params : JobParams)
    (resp : HttpResponse) (wasmResult : Except String String) : DownloadTrace :=
  if resp.statusSuccess then
    if resp.content_length.getD 0 > MAX_WASM_FILE_SIZE then
      { result := .error .tooLarge, fileCreated := false, fileRemoved := false,
        wasmRan := false }
    else if resp.body.length > MAX_WASM_FILE_SIZE then
      { result := .error .tooLarge, fileCreated := true, fileRemoved := false,
        wasmRan := false }
    else if to_lowercase params.checksum ≠ sha256hex resp.body then
      { result := .error (.checksumMismatch params.checksum (sha256hex resp.body)),
        fileCreated := true, fileRemoved := true, wasmRan := false }
    else
      { result := wasmResult.mapError .wasmError, fileCreated := true,
        fileRemoved := false, wasmRan := true }
  else
    { result := .error (.httpStatus resp.statusCode), fileCreated := false,
      fileRemoved := false, wasmRan := false }

/-! ## Oracle signature storage (models/mod.rs save_signatures) -/

/-- Row of the event_nonces table (event_nonce.rs lines 21-30; timestamps
omitted, they are never read). -/
structure EventNonce where
  id : ℤ
  event_id : ℤ
  index : ℤ
  nonce : List ℕ
  signature : Option (List ℕ)
  outcome : Option String
deriving DecidableEq

/-- The slice of the database save_signatures touches: the ids of the rows of
the events table and the rows of event_nonces. -/
structure OracleDb where
  eventIds : List ℤ
  nonces : List EventNonce
deriving DecidableEq

/-- Insertion of a nonce row into a list sorted by index (helper for
sortByIndex). -/
def insertByIndex (n : EventNonce) : List EventNonce → List EventNonce
  | [] => [n]
  | m :: ms => if n.index ≤ m.index then n :: m :: ms else m :: insertByIndex n ms

/-- Stable sort of nonce rows by index, as get_by_event_id (order_by index)
followed by sort_by_key(index) produces. -/
def sortByIndex : List EventNonce → List EventNonce
  | [] => []
  | n :: ns => insertByIndex n (sortByIndex ns)

/-- One iteration body of the save_signatures loop: set outcome and signature
of a nonce row to the supplied values (models/mod.rs lines 239-241). -/
def setNonceSig (n : EventNonce) (s : String × List ℕ) : EventNonce :=
  { n with outcome := some s.1, signature := some s.2 }

/-- Effect of one diesel::update(&nonce).set(&nonce) (models/mod.rs line 244):
replace the row with matching primary key. -/
def updateNonceRow (rows : List EventNonce) (n : EventNonce) : List EventNonce :=
  rows.map (fun m => if m.id = n.id then n else m)

/-- Boolean success test for Except. -/
def exceptIsOk {ε α : Type} (e : Except ε α) : Bool :=
  match e with
  | .ok _ => true
  | .error _ => false

/-- Embedding of PostgresStorage::save_signatures (models/mod.rs lines
220-263), the storage operation behind Oracle::sign_enum_event.  It loads the
event row ("Not Found" if absent), loads the nonce rows of the event, checks
the signature count ("Invalid number of signatures"), sorts by index, zips
with the signature map (whose iteration order is the order of the sigs list)
and issues one update per row, all inside one transaction; it returns the
updated ids.  Note that the current outcome and signature columns are never
inspected. -/
def save_signatures (db : OracleDb) (id : ℤ) (sigs : List (String × List ℕ)) :
    Except String (OracleDb × List ℤ) :=
  if id ∈ db.eventIds then
    let ns := sortByIndex (db.nonces.filter (fun n => n.event_id = id))
    if ns.length ≠ sigs.length then .error "Invalid number of signatures"
    else
      let updated := (ns.zip sigs).map (fun x => setNonceSig x.1 x.2)
      .ok ({ eventIds := db.eventIds, nonces := updated.foldl updateNonceRow db.nonces },
        updated.map (·.id))
  else .error "Not Found"

/-! ## Job coordinator (invoice_subscriber.rs, job_listener.rs) -/

/-- Outbound reply kinds a job run can produce: a kind 6600 JobResult with the
guest output (possibly nip04-encrypted), or a JobFeedback with status Error
carrying the failure message (invoice_subscriber.rs lines 193-221). -/
inductive ReplyKind
  | jobResult (content : String) (encrypted : Bool)
  | errorFeedback (message : String)
deriving DecidableEq

/-- Embedding of run_job_request (invoice_subscriber.rs lines 186-222): on a
wasm success an EventBuilder for a JobResult (encrypted when the request
carried the encrypted tag), on a wasm failure a JobFeedback Error builder;
both branches return Ok.  The second component counts the
download_and_run_wasm invocation. -/
def run_job_request (encrypted : Bool) (wasmResult : Except String String) :
    ReplyKind × ℕ :=
  match wasmResult with
  | .ok r => (.jobResult r encrypted, 1)
  | .error e => (.errorFeedback e, 1)

/-- Return value of handle_job_request, mirroring struct HandleJobResult
(invoice_subscriber.rs lines 126-129).  oracle_announcement records whether
the field is Some; per the source (line 174) the event placed there in the
schedule branch is the incoming request event itself. -/
structure HandleJobResult where
  reply_event : Option ReplyKind
  oracle_announcement : Bool
deriving DecidableEq

/-- Database insertions performed by one handle_job_request call, plus the
count of wasm executions it triggered. -/
structure JobReqEffects where
  scheduledJobsCreated : ℕ
  oracleEventsCreated : ℕ
  eventJobLinks : ℕ
  wasmRuns : ℕ
deriving DecidableEq

/-- Embedding of handle_job_request (invoice_subscriber.rs lines 131-184).
Schedule branch: bail "Schedule run date must be in the future" when
schedule.run_date <= now, before any insertion; otherwise create_enum_event
(an events row plus its nonce rows) exactly when expected_outputs is Some,
create the scheduled Job row, link the EventJob, and return no reply plus
Some(event) for the announcement field.  No-schedule branch: run_job_request.
wasmResult is the outcome download_and_run_wasm would produce. -/
def handle_job_request (now : ℕ) (params : JobParams) (encrypted : Bool)
    (wasmResult : Except String String) :
    Except String (HandleJobResult × JobReqEffects) :=
  match params.schedule with
  | some sch =>
    if sch.run_date ≤ now then .error "Schedule run date must be in the future"
    else
      .ok ({ reply_event := none, oracle_announcement := true },
        { scheduledJobsCreated := 1,
          oracleEventsCreated := if sch.expected_outputs.isSome then 1 else 0,
          eventJobLinks := if sch.expected_outputs.isSome then 1 else 0,
          wasmRuns := 0 })
  | none =>
    .ok ({ reply_event := some (run_job_request encrypted wasmResult).1,
           oracle_announcement := false },
      { scheduledJobsCreated := 0, oracleEventsCreated := 0, eventJobLinks := 0,
        wasmRuns := (run_job_request encrypted wasmResult).2 })

/-- Observable effects of one handle_event call (job_listener.rs lines
80-167): published feedback counts, invoice and Job row creations, wasm runs,
published replies and announcements, the balance row after the call (the
balance_msats of the row, none when no row exists) and the propagated
outcome. -/
structure HandleEventEffects where
  timeErrorFeedbacks : ℕ
  paymentRequiredFeedbacks : ℕ
  invoicesCreated : ℕ
  pendingJobsCreated : ℕ
  completedJobsCreated : ℕ
  scheduledJobsCreated : ℕ
  oracleEventsCreated : ℕ
  wasmRuns : ℕ
  publishedReplies : List ReplyKind
  announcementPublished : ℕ
  finalBalance : Option ℤ
  outcome : Except String Unit
deriving DecidableEq

/-- Embedding of handle_event (job_listener.rs lines 80-167) after a
successful get_job_params.  Control flow in source order: the
params.time > 60*10*1000 bound check publishes one JobFeedback Error and
returns; then value_msat is computed (line 106); a balance row with
(balance_msats as u64) >= value_msat takes the balance path: deduct
value_msat as i32 via update_balance (errors propagate with the deduction
not yet applied), run handle_job_request (errors propagate, deduction
already applied), publish the reply builder if any and create a completed
Job row, publish the announcement event if any; otherwise
create_job_feedback_invoice adds an invoice, creates a pending Job row
(carrying schedule.run_date when present) and publishes a
JobFeedback PaymentRequired. -/
def handle_event (price : ℚ) (now : ℕ) (params : JobParams) (encrypted : Bool)
    (balance : Option ZapBalance) (wasmResult : Except String String) :
    HandleEventEffects :=
  if params.time > 60 * 10 * 1000 then
    { timeErrorFeedbacks := 1, paymentRequiredFeedbacks := 0, invoicesCreated := 0,
      pendingJobsCreated := 0, completedJobsCreated := 0, scheduledJobsCreated := 0,
      oracleEventsCreated := 0, wasmRuns := 0, publishedReplies := [],
      announcementPublished := 0, finalBalance := balance.map (·.balance_msats),
      outcome := .ok () }
  else
    match balance with
    | some b =>
      if i32_as_u64 b.balance_msats ≥ value_msat params.time price then
        match update_balance b (-(i32cast (value_msat params.time price))) with
        | .error e =>
          { timeErrorFeedbacks := 0, paymentRequiredFeedbacks := 0,
            invoicesCreated := 0, pendingJobsCreated := 0, completedJobsCreated := 0,
            scheduledJobsCreated := 0, oracleEventsCreated := 0, wasmRuns := 0,
            publishedReplies := [], announcementPublished := 0,
            finalBalance := some b.balance_msats, outcome := .error e }
        | .ok b2 =>
          match handle_job_request now params encrypted wasmResult with
          | .error e =>
            { timeErrorFeedbacks := 0, paymentRequiredFeedbacks := 0,
              invoicesCreated := 0, pendingJobsCreated := 0,
              completedJobsCreated := 0, scheduledJobsCreated := 0,
              oracleEventsCreated := 0, wasmRuns := 0, publishedReplies := [],
              announcementPublished := 0, finalBalance := some b2.balance_msats,
              outcome := .error e }
          | .ok (hjr, eff) =>
            { timeErrorFeedbacks := 0, paymentRequiredFeedbacks := 0,
              invoicesCreated := 0, pendingJobsCreated := 0,
              completedJobsCreated := if hjr.reply_event.isSome then 1 else 0,
              scheduledJobsCreated := eff.scheduledJobsCreated,
              oracleEventsCreated := eff.oracleEventsCreated,
              wasmRuns := eff.wasmRuns,
              publishedReplies := hjr.reply_event.toList,
              announcementPublished := if hjr.oracle_announcement then 1 else 0,
              finalBalance := some b2.balance_msats, outcome := .ok () }
      else
        { timeErrorFeedbacks := 0, paymentRequiredFeedbacks := 1,
          invoicesCreated := 1, pendingJobsCreated := 1, completedJobsCreated := 0,
          scheduledJobsCreated := 0, oracleEventsCreated := 0, wasmRuns := 0,
          publishedReplies := [], announcementPublished := 0,
          finalBalance := some b.balance_msats, outcome := .ok () }
    | none =>
      { timeErrorFeedbacks := 0, paymentRequiredFeedbacks := 1,
        invoicesCreated := 1, pendingJobsCreated := 1, completedJobsCreated := 0,
        scheduledJobsCreated := 0, oracleEventsCreated := 0, wasmRuns := 0,
        publishedReplies := [], announcementPublished := 0, finalBalance := none,
        outcome := .ok () }

/-! ## Invoice settlement handler (invoice_subscriber.rs handle_invoice) -/

/-- Row of the jobs table as read by Job::get_by_payment_hash (job.rs lines
24-32; the request column is represented by the params and encrypted flag
passed next to it, timestamps omitted). -/
structure JobRow where
  id : ℤ
  payment_hash : List ℕ
  response_id : Option (List ℕ)
  scheduled_at : Option ℕ
deriving DecidableEq

/-- Observable effects of one handle_invoice call. -/
structure InvoiceHandlerEffects where
  wasmRuns : ℕ
  publishedReplies : List ReplyKind
  responseIdSet : ℕ
  scheduledJobsCreated : ℕ
  oracleEventsCreated : ℕ
  announcementPublished : ℕ
  zapPath : Bool
  outcome : Except String Unit
deriving DecidableEq

/-- Embedding of handle_invoice (invoice_subscriber.rs lines 81-124) for a
settled invoice.  jobLookup is the result of Job::get_by_payment_hash for the
invoice r_hash; params and encrypted are what get_job_params extracts from
the stored request event; wasmResult is what download_and_run_wasm would
produce.  When no job matches, the zap path runs (zapPath flag, not further
modelled here).  When a job matches, the source proceeds directly to
handle_job_request: neither job.response_id nor job.scheduled_at is
consulted anywhere.  A Some reply builder is published and
Job::set_response_id is executed; a Some announcement field is published. -/
def handle_invoice (now : ℕ) (jobLookup : Option JobRow) (params : JobParams)
    (encrypted : Bool) (wasmResult : Except String String) :
    InvoiceHandlerEffects :=
  match jobLookup with
  | none =>
    { wasmRuns := 0, publishedReplies := [], responseIdSet := 0,
      scheduledJobsCreated := 0, oracleEventsCreated := 0,
      announcementPublished := 0, zapPath := true, outcome := .ok () }
  | some _job =>
    match handle_job_request now params encrypted wasmResult with
    | .error e =>
      { wasmRuns := 0, publishedReplies := [], responseIdSet := 0,
        scheduledJobsCreated := 0, oracleEventsCreated := 0,
        announcementPublished := 0, zapPath := false, outcome := .error e }
    | .ok (hjr, eff) =>
      { wasmRuns := eff.wasmRuns,
        publishedReplies := hjr.reply_event.toList,
        responseIdSet := if hjr.reply_event.isSome then 1 else 0,
        scheduledJobsCreated := eff.scheduledJobsCreated,
        oracleEventsCreated := eff.oracleEventsCreated,
        announcementPublished := if hjr.oracle_announcement then 1 else 0,
        zapPath := false, outcome := .ok () }

/-! ## Scheduler (job_listener.rs process_schedule_jobs_round and
run_scheduled_job)

A miniature interleaving semantics for two concurrent scheduler rounds over a
single scheduled job (id 1) that is due throughout.  Each atomic action of
the source is one step:

  * query   - Job::get_ready_to_run_jobs (lines 266-268): one SQL query
              returning the job iff response_id is null (scheduled_at is in
              the past throughout this model);
  * lease   - the mutex critical section (lines 271-274): retain the queried
              jobs not in the active set, then extend the active set, in one
              atomic step;
  * runWasm - run_job_request plus the publish inside run_scheduled_job
              (lines 312-315), counted by runCount;
  * release - active.remove(&job.id) (lines 318-319);
  * persist - Job::set_response_id (line 322).

Per task, the source order is query, lease, then for a dispatched job
runWasm, release, persist - release strictly before persist. -/

/-- Atomic actions of the scheduler model; the Bool names the round. -/
inductive SchedAct
  | query (r : Bool)
  | lease (r : Bool)
  | runWasm (r : Bool)
  | release (r : Bool)
  | persist (r : Bool)
deriving DecidableEq

/-- Shared state: the jobs row of job 1 (response_id), the mutex-guarded
active set, each round's queried flag and dispatch flag, and the number of
wasm executions of job 1. -/
structure SchedState where
  responseId : Option ℕ
  active : List ℤ
  queued0 : Option Bool
  queued1 : Option Bool
  disp0 : Bool
  disp1 : Bool
  runCount : ℕ
deriving DecidableEq

/-- Interpreter for one atomic action, following the source semantics given
above. -/
def schedStep (s : SchedState) : SchedAct → SchedState
  | .query r =>
    if r then { s with queued1 := some s.responseId.isNone }
    else { s with queued0 := some s.responseId.isNone }
  | .lease r =>
    let q := (if r then s.queued1 else s.queued0).getD false
    let take := q && !(s.active.contains 1)
    if take then
      if r then { s with active := 1 :: s.active, disp1 := true }
      else { s with active := 1 :: s.active, disp0 := true }
    else
      if r then { s with disp1 := false } else { s with disp0 := false }
  | .runWasm r =>
    if (if r then s.disp1 else s.disp0) then { s with runCount := s.runCount + 1 }
    else s
  | .release r =>
    if (if r then s.disp1 else s.disp0) then { s with active := s.active.erase 1 }
    else s
  | .persist r =>
    if (if r then s.disp1 else s.disp0) then { s with responseId := some 99 }
    else s

/-- Initial state: job 1 pending (response_id null), empty active set. -/
def schedInit : SchedState :=
  { responseId := none, active := [], queued0 := none, queued1 := none,
    disp0 := false, disp1 := false, runCount := 0 }

/-- Execution of a sequence of atomic actions from the initial state. -/
def schedRun (acts : List SchedAct) : SchedState := acts.foldl schedStep schedInit

/-- Interleaving in which round false completes its run and releases the
lease, and round true queries and dispatches before round false persists
response_id.  Each task's own actions appear in source order: round r is
query, lease; its spawned job task is runWasm, release, persist. -/
def racingTrace : List SchedAct :=
  [.query false, .lease false, .runWasm false, .release false,
   .query true, .lease true, .runWasm true, .persist false,
   .release true, .persist true]

/-! ## Theorems -/

/-- C8 counterexample: with the stored balance at i32::MAX and a credit of 1,
the claim says the stored balance becomes 2^31 - 1 + 1; the code's
saturating_add stores 2^31 - 1 instead and reports success. -/
theorem c8_counterexample :
    update_balance ⟨[], 2 ^ 31 - 1⟩ 1 = .ok ⟨[], 2 ^ 31 - 1⟩ ∧
    (2 ^ 31 - 1 : ℤ) ≠ (2 ^ 31 - 1) + 1 := by
  constructor
  · unfold update_balance i32sat
    norm_num
  · norm_num

/-- C8 (amended): for in-range inputs, update_balance fails with
"Insufficient balance" exactly when the mathematical sum is negative (with no
state change, the error is raised before the database write); otherwise it
stores min (b + d) (2^31 - 1), the i32-saturated sum, which equals b + d
except on positive i32 overflow. -/
theorem c8_update_balance (b : ZapBalance) (d : ℤ)
    (hb1 : -(2 ^ 31) ≤ b.balance_msats) (hb2 : b.balance_msats < 2 ^ 31)
    (hd1 : -(2 ^ 31) ≤ d) (hd2 : d < 2 ^ 31) :
    (b.balance_msats + d < 0 → update_balance b d = .error "Insufficient balance") ∧
    (0 ≤ b.balance_msats + d →
      update_balance b d = .ok ⟨b.npub, min (b.balance_msats + d) (2 ^ 31 - 1)⟩) := by
  obtain ⟨np, bm⟩ := b
  simp only [update_balance, i32sat] at *
  constructor
  · intro h
    rw [if_pos (by omega)]
  · intro h
    rw [if_neg (by omega)]
    simp only [Except.ok.injEq, ZapBalance.mk.injEq]
    exact ⟨trivial, by omega⟩

/-- C8 witness: a concrete in-range update, 100 msat minus 50 msat. -/
theorem c8_witness : update_balance ⟨[], 100⟩ (-50) = .ok ⟨[], 50⟩ := by
  have h := (c8_update_balance ⟨[], 100⟩ (-50) (by norm_num) (by norm_num)
    (by norm_num) (by norm_num)).2 (by norm_num)
  simpa using h

/-- C9 counterexample: from the boot seed 0 of an empty table, a reservation
of 4294967294 nonces followed by a reservation of 4 nonces wraps the u32
counter: the second id sequence [4294967294, 4294967295, 0, 1] is not
strictly increasing and the id 0 lies in both returned ranges. -/
theorem c9_counterexample :
    0 ∈ nonce_ids 0 4294967294 ∧
    nonce_counter_after 0 4294967294 = 4294967294 ∧
    nonce_ids 4294967294 4 = [4294967294, 4294967295, 0, 1] ∧
    ¬ List.Pairwise (· < ·) (nonce_ids 4294967294 4) ∧
    0 ∈ nonce_ids 4294967294 4 := by
  refine ⟨?_, by decide, by decide, by decide, by decide⟩
  simp only [nonce_ids, List.mem_map, List.mem_range]
  exact ⟨0, by decide, by decide⟩

/-- C9 (amended): two reservations reserve_nonces(a) then reserve_nonces(b)
from counter state c return strictly increasing, mutually disjoint id ranges,
provided the combined reservation does not wrap the 32-bit counter
(c + a + b < 2^32); the counter is seeded from max(event_nonces.id) + 1, or 0
for an empty table. -/
theorem c9_reserve_nonces (c a b m : ℕ) (h : c + a + b < 2 ^ 32) :
    List.Pairwise (· < ·) (nonce_ids c a) ∧
    List.Pairwise (· < ·) (nonce_ids (nonce_counter_after c a) b) ∧
    List.Disjoint (nonce_ids c a) (nonce_ids (nonce_counter_after c a) b) ∧
    get_next_id (some m) = m + 1 ∧ get_next_id none = 0 := by
  have ha : a % 2 ^ 32 = a := Nat.mod_eq_of_lt (by omega)
  have hb : b % 2 ^ 32 = b := Nat.mod_eq_of_lt (by omega)
  have hca : nonce_counter_after c a = c + a := by
    unfold nonce_counter_after
    rw [ha, Nat.mod_eq_of_lt (by omega)]
  have hids1 : nonce_ids c a = (List.range a).map (fun i => c + i) := by
    unfold nonce_ids
    rw [ha]
    refine List.map_congr_left ?_
    intro i hi
    exact Nat.mod_eq_of_lt (by have := List.mem_range.mp hi; omega)
  have hids2 : nonce_ids (nonce_counter_after c a) b =
      (List.range b).map (fun i => c + a + i) := by
    unfold nonce_ids
    rw [hb, hca]
    refine List.map_congr_left ?_
    intro i hi
    exact Nat.mod_eq_of_lt (by have := List.mem_range.mp hi; omega)
  refine ⟨?_, ?_, ?_, rfl, rfl⟩
  · rw [hids1]
    exact List.Pairwise.map _ (fun hab => by omega) (List.pairwise_lt_range a)
  · rw [hids2]
    exact List.Pairwise.map _ (fun hab => by omega) (List.pairwise_lt_range b)
  · rw [hids1, hids2]
    intro x hx hy
    obtain ⟨i, hi, rfl⟩ := List.mem_map.mp hx
    obtain ⟨j, hj, hij⟩ := List.mem_map.mp hy
    have hi2 := List.mem_range.mp hi
    have hj2 := List.mem_range.mp hj
    omega

/-- C9 witness: two small reservations from counter state 0. -/
theorem c9_witness :
    List.Pairwise (· < ·) (nonce_ids 0 3) ∧
    List.Pairwise (· < ·) (nonce_ids (nonce_counter_after 0 3) 2) ∧
    List.Disjoint (nonce_ids 0 3) (nonce_ids (nonce_counter_after 0 3) 2) ∧
    get_next_id (some 7) = 7 + 1 ∧ get_next_id none = 0 :=
  c9_reserve_nonces 0 3 2 7 (by norm_num)

/-- C2: in the interleaving racingTrace the scheduler executes job 1 twice,
because run_scheduled_job removes the job from the active set
(job_listener.rs line 319) before persisting response_id (line 322): round
true queries and dispatches the job in the window between round false's
release and persist.  The claim's at-most-once invariant and its stated
reason (release only after response_id is persisted) both fail on the
source order. -/
theorem c2_double_execution :
    (schedRun racingTrace).runCount = 2 ∧
    (schedRun racingTrace).responseId = some 99 := by
  constructor <;> rfl

/-- C1: handle_invoice never consults job.response_id or job.scheduled_at.
First conjunct: a replayed settlement for a completed job (response_id
already set) re-runs the Wasm, publishes a second JobResult and re-executes
set_response_id.  Second conjunct: a settlement for a future-scheduled job
creates a second scheduled Job row plus a second oracle event instead of
doing nothing. -/
theorem c1_replay_reexecutes :
    handle_invoice 1000 (some ⟨7, [0], some [1], none⟩)
        ⟨"u", "f", "i", 500, "c", none⟩ false (.ok "x") =
      { wasmRuns := 1, publishedReplies := [.jobResult "x" false], responseIdSet := 1,
        scheduledJobsCreated := 0, oracleEventsCreated := 0,
        announcementPublished := 0, zapPath := false, outcome := .ok () } ∧
    handle_invoice 1000 (some ⟨8, [1], none, some 2000⟩)
        ⟨"u", "f", "i", 500, "c", some ⟨some ["yes", "no"], 2000, none⟩⟩ false
        (.ok "x") =
      { wasmRuns := 0, publishedReplies := [], responseIdSet := 0,
        scheduledJobsCreated := 1, oracleEventsCreated := 1,
        announcementPublished := 1, zapPath := false, outcome := .ok () } := by
  constructor <;> rfl

/-- C3 counterexample: save_signatures on an event whose single nonce row
already carries outcome "yes" and a signature succeeds and overwrites the row
with the new outcome "no" and signature, instead of failing and leaving the
stored values unchanged. -/
theorem c3_counterexample :
    save_signatures ⟨[1], [⟨5, 1, 0, [7], some [9], some "yes"⟩]⟩ 1 [("no", [3])] =
      .ok (⟨[1], [⟨5, 1, 0, [7], some [3], some "no"⟩]⟩, [5]) ∧
    (some "no" : Option String) ≠ some "yes" :=
  ⟨rfl, by decide⟩

/-- C3 (amended): save_signatures never inspects the stored outcome and
signature columns; whenever the event row exists and the signature count
matches the nonce count it succeeds, also when outcome and signature are
already non-null, overwriting them (sign-once is not enforced at the storage
layer). -/
theorem c3_save_signatures_succeeds (db : OracleDb) (id : ℤ)
    (sigs : List (String × List ℕ)) (h1 : id ∈ db.eventIds)
    (h2 : (sortByIndex (db.nonces.filter (fun n => n.event_id = id))).length =
      sigs.length) :
    exceptIsOk (save_signatures db id sigs) = true := by
  simp only [save_signatures]
  rw [if_pos h1, if_neg (show ¬ _ ≠ _ from fun hC => hC h2)]
  rfl

/-- C3 witness: a nonce row whose outcome and signature are already set is
re-signed successfully. -/
theorem c3_witness :
    exceptIsOk (save_signatures ⟨[2], [⟨6, 2, 0, [1], some [4], some "a"⟩]⟩ 2
      [("b", [5])]) = true :=
  c3_save_signatures_succeeds ⟨[2], [⟨6, 2, 0, [1], some [4], some "a"⟩]⟩ 2
    [("b", [5])] (by decide) (by decide)

/-- C6 counterexample: a declared checksum that is the uppercase rendering of
the correct digest differs, as a string, from the lowercase hex rendering of
the body's sha256, yet the runner accepts it (the source lowercases the
declared checksum before comparing) and proceeds to run the sandbox. -/
theorem c6_counterexample :
    download_and_run_wasm (fun _ => "ab") ⟨"u", "f", "i", 5, "AB", none⟩
        ⟨true, 200, none, [1]⟩ (.ok "r") =
      { result := .ok "r", fileCreated := true, fileRemoved := false,
        wasmRan := true } ∧
    "ab" ≠ "AB" := by
  constructor
  · unfold download_and_run_wasm MAX_WASM_FILE_SIZE
    rw [if_pos rfl, if_neg (by decide), if_neg (by decide),
      if_neg (by decide : ¬ to_lowercase "AB" ≠ "ab")]
    rfl
  · decide

/-- C6 (amended): whenever the lowercased declared checksum differs from the
lowercase hex rendering of the body's sha256 (i.e. the comparison the source
performs on wasm_handler.rs line 67 fails), the runner returns the fatal
checksum-mismatch error, has removed the temporary file, and never reaches
run_wasm (no sandbox, no guest invocation). -/
theorem c6_checksum_mismatch (sha : List ℕ → String) (p : JobParams)
    (resp : HttpResponse) (w : Except String String)
    (hs : resp.statusSuccess = true)
    (h1 : resp.content_length.getD 0 ≤ 25000000)
    (h2 : resp.body.length ≤ 25000000)
    (hm : to_lowercase p.checksum ≠ sha resp.body) :
    download_and_run_wasm sha p resp w =
      { result := .error (.checksumMismatch p.checksum (sha resp.body)),
        fileCreated := true, fileRemoved := true, wasmRan := false } := by
  unfold download_and_run_wasm MAX_WASM_FILE_SIZE
  rw [if_pos hs, if_neg (by omega), if_neg (by omega), if_pos hm]

/-- C6 witness: a wrong lowercase checksum is rejected with the file
removed and no wasm run. -/
theorem c6_witness :
    download_and_run_wasm (fun _ => "ab") ⟨"u", "f", "i", 5, "zz", none⟩
        ⟨true, 200, none, [1]⟩ (.ok "r") =
      { result := .error (.checksumMismatch "zz" "ab"), fileCreated := true,
        fileRemoved := true, wasmRan := false } :=
  c6_checksum_mismatch (fun _ => "ab") ⟨"u", "f", "i", 5, "zz", none⟩
    ⟨true, 200, none, [1]⟩ (.ok "r") rfl (by decide) (by decide) (by decide)

/-- C7: for a successful HTTP status, a declared content length over
25000000 bytes or a body over 25000000 bytes yields the "File too large"
failure with run_wasm never reached; and with no declared content length the
declared-size check passes, the too-large failure arising exactly when the
actual body length exceeds the bound. -/
theorem c7_size_limit (sha : List ℕ → String) (p : JobParams)
    (resp : HttpResponse) (w : Except String String)
    (hs : resp.statusSuccess = true) :
    ((25000000 < resp.content_length.getD 0 ∨ 25000000 < resp.body.length) →
      (download_and_run_wasm sha p resp w).result = .error .tooLarge ∧
      (download_and_run_wasm sha p resp w).wasmRan = false) ∧
    (resp.content_length = none →
      ((download_and_run_wasm sha p resp w).result = .error .tooLarge ↔
        25000000 < resp.body.length)) := by
  unfold download_and_run_wasm MAX_WASM_FILE_SIZE
  rw [if_pos hs]
  constructor
  · intro h
    by_cases h1 : resp.content_length.getD 0 > 25000000
    · rw [if_pos h1]
      exact ⟨rfl, rfl⟩
    · have h2 : resp.body.length > 25000000 := h.resolve_left h1
      rw [if_neg h1, if_pos h2]
      exact ⟨rfl, rfl⟩
  · intro hn
    rw [hn]
    rw [if_neg (by simp)]
    by_cases h2 : resp.body.length > 25000000
    · rw [if_pos h2]
      exact ⟨fun _ => h2, fun _ => rfl⟩
    · rw [if_neg h2]
      refine iff_of_false ?_ h2
      split
      · simp
      · rcases w with r | e <;> simp [Except.mapError]

/-- C7 witness: a response declaring 26000000 bytes is rejected as too large
with no wasm run. -/
theorem c7_witness :
    (download_and_run_wasm (fun _ => "h") ⟨"u", "f", "i", 5, "h", none⟩
        ⟨true, 200, some 26000000, []⟩ (.ok "r")).result = .error .tooLarge ∧
    (download_and_run_wasm (fun _ => "h") ⟨"u", "f", "i", 5, "h", none⟩
        ⟨true, 200, some 26000000, []⟩ (.ok "r")).wasmRan = false :=
  (c7_size_limit (fun _ => "h") ⟨"u", "f", "i", 5, "h", none⟩
    ⟨true, 200, some 26000000, []⟩ (.ok "r") rfl).1 (Or.inl (by decide))

/-- C5: a request whose parsed params.time exceeds 600000 milliseconds makes
handle_event publish exactly one JobFeedback Error and stop, with the
balance row untouched, no invoice, no Job row of any kind, no wasm run; a
request with params.time at most 600000 passes the bound check (no
time-bound error feedback is ever published for it). -/
theorem c5_time_bound (price : ℚ) (now : ℕ) (params : JobParams)
    (encrypted : Bool) (balance : Option ZapBalance) (w : Except String String) :
    (600000 < params.time →
      handle_event price now params encrypted balance w =
        { timeErrorFeedbacks := 1, paymentRequiredFeedbacks := 0,
          invoicesCreated := 0, pendingJobsCreated := 0, completedJobsCreated := 0,
          scheduledJobsCreated := 0, oracleEventsCreated := 0, wasmRuns := 0,
          publishedReplies := [], announcementPublished := 0,
          finalBalance := balance.map (·.balance_msats), outcome := .ok () }) ∧
    (params.time ≤ 600000 →
      (handle_event price now params encrypted balance w).timeErrorFeedbacks = 0) := by
  constructor
  · intro h
    unfold handle_event
    rw [if_pos (by omega)]
  · intro h
    unfold handle_event
    rw [if_neg (by omega)]
    rcases balance with _ | b
    · rfl
    · dsimp only
      split
      · split
        · rfl
        · split
          · rfl
          · rfl
      · rfl

/-- C5 witness: a 700000 ms request is rejected with one error feedback; a
500 ms request passes the bound check. -/
theorem c5_witness :
    handle_event 1 0 ⟨"u", "f", "i", 700000, "c", none⟩ false none (.ok "x") =
      { timeErrorFeedbacks := 1, paymentRequiredFeedbacks := 0,
        invoicesCreated := 0, pendingJobsCreated := 0, completedJobsCreated := 0,
        scheduledJobsCreated := 0, oracleEventsCreated := 0, wasmRuns := 0,
        publishedReplies := [], announcementPublished := 0,
        finalBalance := none, outcome := .ok () } ∧
    (handle_event 1 0 ⟨"u", "f", "i", 500, "c", none⟩ false none
      (.ok "x")).timeErrorFeedbacks = 0 :=
  ⟨(c5_time_bound 1 0 ⟨"u", "f", "i", 700000, "c", none⟩ false none
      (.ok "x")).1 (by norm_num),
   (c5_time_bound 1 0 ⟨"u", "f", "i", 500, "c", none⟩ false none
      (.ok "x")).2 (by norm_num)⟩

/-- Rounding to nearest leaves integers unchanged. -/
theorem rne_intCast (n : ℤ) : rne (n : ℚ) = n := by
  simp only [rne, Int.floor_intCast, sub_self]
  norm_num

/-- The f64 model maps 0 to 0. -/
theorem f64round_zero : f64round 0 = 0 := by simp [f64round]

/-- Naturals below 2^53 are exactly representable: binary64 rounding leaves
them unchanged. -/
theorem f64round_natCast (n : ℕ) (h0 : 0 < n) (h : n < 2 ^ 53) :
    f64round (n : ℚ) = n := by
  have hpos : (0 : ℚ) < n := by exact_mod_cast h0
  unfold f64round
  rw [if_neg (not_le.mpr hpos), Int.log_natCast]
  have he52 : Nat.log 2 n ≤ 52 := by
    have := Nat.log_lt_of_lt_pow (Nat.pos_iff_ne_zero.mp h0) h
    omega
  have hexp : (52 : ℤ) - (Nat.log 2 n : ℤ) = ((52 - Nat.log 2 n : ℕ) : ℤ) := by omega
  rw [hexp, zpow_natCast]
  have hint : (n : ℚ) * 2 ^ (52 - Nat.log 2 n) =
      (((n * 2 ^ (52 - Nat.log 2 n) : ℕ) : ℤ) : ℚ) := by push_cast; ring
  rw [hint, rne_intCast]
  push_cast
  rw [mul_assoc, ← zpow_natCast (2 : ℚ) (52 - Nat.log 2 n), ← zpow_add₀ (two_ne_zero)]
  rw [show ((52 - Nat.log 2 n : ℕ) : ℤ) + ((Nat.log 2 n : ℤ) - 52) = 0 by omega]
  rw [zpow_zero, mul_one]

/-- The coded price formula agrees with the exact product for integral msat
prices whose product stays below 2^53. -/
theorem value_msat_natCast (t p : ℕ) (hp : 0 < p) (h : t * p < 2 ^ 53) :
    value_msat t (p : ℚ) = t * p := by
  rcases Nat.eq_zero_or_pos t with rfl | ht
  · simp [value_msat, u64cast, f64round_zero]
  · have ht53 : t < 2 ^ 53 := lt_of_le_of_lt (Nat.le_mul_of_pos_right t hp) h
    unfold value_msat
    rw [f64round_natCast t ht ht53]
    rw [show (t : ℚ) * p = ((t * p : ℕ) : ℚ) by push_cast; ring]
    rw [f64round_natCast (t * p) (Nat.mul_pos ht hp) h]
    unfold u64cast
    rw [Int.floor_natCast, Int.toNat_natCast]
    have h64 : t * p ≤ 2 ^ 64 - 1 := by
      have : (2 : ℕ) ^ 53 ≤ 2 ^ 64 - 1 := by norm_num
      omega
    exact min_eq_left h64

/-- The spec billing formula on a natural price. -/
theorem value_msat_spec_natCast (t p : ℕ) : value_msat_spec t (p : ℚ) = t * p := by
  unfold value_msat_spec
  rw [show (t : ℚ) * p = ((t * p : ℕ) : ℚ) by push_cast; ring]
  rw [Int.floor_natCast, Int.toNat_natCast]

/-- C4 counterexample: with params.time = 3 and the configured price equal to
the binary64 value nearest 1/3 (namely 6004799503160661 / 2^54), the code
charges 1 msat while floor over exact rational arithmetic gives 0: the f64
product of 3 and that price rounds up to exactly 1.0 (a round-to-even tie at
53 bits), so the claimed identity with the exact floor fails. -/
theorem c4_counterexample :
    value_msat 3 (6004799503160661 / 2 ^ 54) = 1 ∧
    value_msat_spec 3 (6004799503160661 / 2 ^ 54) = 0 := by
  constructor
  · unfold value_msat
    rw [f64round_natCast 3 (by norm_num) (by norm_num)]
    rw [show ((3 : ℕ) : ℚ) * (6004799503160661 / 2 ^ 54) =
      18014398509481983 / 2 ^ 54 by push_cast; ring_nf]
    have hpos : (0 : ℚ) < 18014398509481983 / 2 ^ 54 := by positivity
    have hlog : Int.log 2 (18014398509481983 / 2 ^ 54 : ℚ) = -1 := by
      have h1 : (2 : ℚ) ^ (-1 : ℤ) ≤ 18014398509481983 / 2 ^ 54 := by
        rw [zpow_neg, zpow_one]
        norm_num
      have h2 : (18014398509481983 / 2 ^ 54 : ℚ) < 2 ^ (0 : ℤ) := by
        rw [zpow_zero]
        norm_num
      have hA : (-1 : ℤ) ≤ Int.log 2 (18014398509481983 / 2 ^ 54 : ℚ) :=
        (Int.zpow_le_iff_le_log (by norm_num) hpos).mp h1
      have hB : Int.log 2 (18014398509481983 / 2 ^ 54 : ℚ) < 0 :=
        (Int.lt_zpow_iff_log_lt (by norm_num) hpos).mp h2
      omega
    unfold f64round
    rw [if_neg (not_le.mpr hpos), hlog]
    rw [show (52 : ℤ) - (-1) = ((53 : ℕ) : ℤ) by norm_num, zpow_natCast]
    rw [show (18014398509481983 / 2 ^ 54 : ℚ) * 2 ^ (53 : ℕ) =
      18014398509481983 / 2 by
        rw [div_mul_eq_mul_div, div_eq_div_iff (by norm_num) (by norm_num)]
        norm_num]
    have hfl : ⌊(18014398509481983 / 2 : ℚ)⌋ = 9007199254740991 :=
      Int.floor_eq_iff.mpr ⟨by norm_num, by norm_num⟩
    have hrne : rne (18014398509481983 / 2 : ℚ) = 9007199254740992 := by
      unfold rne
      rw [hfl]
      rw [show (18014398509481983 / 2 : ℚ) - (9007199254740991 : ℤ) = 1 / 2 by
        push_cast; norm_num]
      rw [if_neg (by norm_num), if_neg (by norm_num), if_neg (by decide)]
      norm_num
    rw [hrne]
    rw [show ((9007199254740992 : ℤ) : ℚ) * 2 ^ ((-1 : ℤ) - 52) = 1 by
      rw [show ((-1 : ℤ) - 52) = -(53 : ℤ) by norm_num, zpow_neg]
      norm_num]
    unfold u64cast
    norm_num
  · unfold value_msat_spec
    rw [show ⌊((3 : ℕ) : ℚ) * (6004799503160661 / 2 ^ 54)⌋ = 0 from
      Int.floor_eq_iff.mpr ⟨by push_cast; positivity, by push_cast; norm_num⟩]
    rfl

/-- C4 (amended): the charged price is the binary64 evaluation
trunc(f64(time) * price) rather than an exact floor; when the configured
price is a whole number of msat per ms and time * price < 2^53 the two
agree, but for fractional prices they can differ (see the counterexample). -/
theorem c4_price_binary64 (t p : ℕ) (hp : 0 < p) (h : t * p < 2 ^ 53) :
    value_msat t (p : ℚ) = t * p ∧ value_msat_spec t (p : ℚ) = t * p :=
  ⟨value_msat_natCast t p hp h, value_msat_spec_natCast t p⟩

/-- C4 witness: the spec scenario price of 1 msat per ms and a 500 ms job is
charged exactly 500 msat by both formulas. -/
theorem c4_witness : value_msat 500 (1 : ℚ) = 500 ∧
    value_msat_spec 500 (1 : ℚ) = 500 := by
  have h := c4_price_binary64 500 1 (by norm_num) (by norm_num)
  simpa using h

/-- C10: a job request carrying a schedule whose run_date is not in the
future makes handle_job_request bail with the exact message before any
insertion (no Job row, no oracle event, no nonce rows, no EventJob link);
and in the balance path of handle_event the deduction performed before the
call is kept, the handler ending with the deducted balance stored, the error
propagated, and nothing created. -/
theorem c10_schedule_in_past (price : ℚ) (now : ℕ) (params : JobParams)
    (encrypted : Bool) (b b2 : ZapBalance) (w : Except String String)
    (sch : ScheduledParams) (hsch : params.schedule = some sch)
    (hpast : sch.run_date ≤ now) (htime : params.time ≤ 600000)
    (hbal : i32_as_u64 b.balance_msats ≥ value_msat params.time price)
    (hup : update_balance b (-(i32cast (value_msat params.time price))) = .ok b2) :
    handle_job_request now params encrypted w =
      .error "Schedule run date must be in the future" ∧
    handle_event price now params encrypted (some b) w =
      { timeErrorFeedbacks := 0, paymentRequiredFeedbacks := 0,
        invoicesCreated := 0, pendingJobsCreated := 0, completedJobsCreated := 0,
        scheduledJobsCreated := 0, oracleEventsCreated := 0, wasmRuns := 0,
        publishedReplies := [], announcementPublished := 0,
        finalBalance := some b2.balance_msats,
        outcome := .error "Schedule run date must be in the future" } := by
  have hjr : handle_job_request now params encrypted w =
      .error "Schedule run date must be in the future" := by
    unfold handle_job_request
    rw [hsch]
    dsimp only
    rw [if_pos hpast]
  refine ⟨hjr, ?_⟩
  unfold handle_event
  rw [if_neg (by omega)]
  dsimp only
  rw [if_pos hbal, hup]
  dsimp only
  rw [hjr]

/-- C10 witness: a 500 ms request scheduled for unix second 500 arriving at
unix second 1000, with a funded balance of 100000 msat at price 1, errors
with the balance left at 99500 and nothing created. -/
theorem c10_witness :
    handle_job_request 1000 ⟨"u", "f", "i", 500, "c", some ⟨none, 500, none⟩⟩
        false (.ok "x") =
      .error "Schedule run date must be in the future" ∧
    handle_event 1 1000 ⟨"u", "f", "i", 500, "c", some ⟨none, 500, none⟩⟩ false
        (some ⟨[], 100000⟩) (.ok "x") =
      { timeErrorFeedbacks := 0, paymentRequiredFeedbacks := 0,
        invoicesCreated := 0, pendingJobsCreated := 0, completedJobsCreated := 0,
        scheduledJobsCreated := 0, oracleEventsCreated := 0, wasmRuns := 0,
        publishedReplies := [], announcementPublished := 0,
        finalBalance := some 99500,
        outcome := .error "Schedule run date must be in the future" } := by
  have hv : value_msat 500 (1 : ℚ) = 500 := by
    have h := value_msat_natCast 500 1 (by norm_num) (by norm_num)
    simpa using h
  exact c10_schedule_in_past 1 1000 ⟨"u", "f", "i", 500, "c", some ⟨none, 500, none⟩⟩
    false ⟨[], 100000⟩ ⟨[], 99500⟩ (.ok "x") ⟨none, 500, none⟩ rfl (by norm_num)
    (by norm_num) (by rw [hv]; decide) (by rw [hv]; decide)

end WasmDvm
